import Mathlib

/-!
Verification of `far/topologyRefiner.cpp` (OpenSubdiv, Far layer).

The development shallowly embeds the refinement-hierarchy orchestration of
`TopologyRefiner` (level/refinement stacks, inventory bookkeeping, the uniform
and adaptive refinement loops) and the feature-adaptive face classification
(`FeatureMask`, `doesInfSharpFaceHaveFeatures`, `doesFaceHaveFeatures`,
`doesFaceHaveDistinctFaceVaryingFeatures`, `selectFeatureAdaptiveComponents`).

External collaborators (Vtr levels, refinements, the Sdc scheme traits) are
modelled as plain data: a `Level` is the record of exactly the queries the
source file makes of it, a refinement pass's `refine()` is an oracle function
parameter producing the child level, and a `SparseSelector` is the list of
`selectFace` calls made into it.
-/

namespace Far

/-- The `Sdc::SchemeType` enumeration (`SCHEME_BILINEAR/_CATMARK/_LOOP`). -/
inductive SchemeType where
  | bilinear
  | catmark
  | loop
deriving DecidableEq, Repr, Inhabited

/-- Modelled from the spec: `Sdc::SchemeTypeTraits::GetRegularFaceSize` is not
under `src/`; the spec's glossary fixes it as "4 for quad-split, 3 for
triangle-split" (Bilinear and Catmark split to quads, Loop to triangles). -/
def GetRegularFaceSize : SchemeType → Nat
  | SchemeType.bilinear => 4
  | SchemeType.catmark => 4
  | SchemeType.loop => 3

/-- Modelled from the spec: `Sdc::SchemeTypeTraits::GetLocalNeighborhoodSize`
is not under `src/`; the spec describes Bilinear as the scheme "whose influence
does not extend beyond the face" (size 0), while Catmark and Loop have nonzero
local-neighborhood influence. -/
def GetLocalNeighborhoodSize : SchemeType → Nat
  | SchemeType.bilinear => 0
  | SchemeType.catmark => 1
  | SchemeType.loop => 1

/-- Bit of `Sdc::Crease::RULE_SMOOTH` (1 << 0). -/
def ruleSmooth : Nat := 1

/-- Bit of `Sdc::Crease::RULE_DART` (1 << 1). -/
def ruleDart : Nat := 2

/-- Bit of `Sdc::Crease::RULE_CREASE` (1 << 2). -/
def ruleCrease : Nat := 4

/-- Bit of `Sdc::Crease::RULE_CORNER` (1 << 3). -/
def ruleCorner : Nat := 8

/-- `Vtr::internal::Level::VTag` -- the per-vertex topology tag bits that
`topologyRefiner.cpp` reads, with `rule` the bit-set of crease rules
accumulated at the vertex. -/
structure VTag where
  nonManifold : Bool := false
  xordinary : Bool := false
  boundary : Bool := false
  corner : Bool := false
  infSharp : Bool := false
  infSharpEdges : Bool := false
  infIrregular : Bool := false
  semiSharp : Bool := false
  semiSharpEdges : Bool := false
  incomplete : Bool := false
  rule : Nat := 0
deriving DecidableEq, Repr, Inhabited

/-- One step of `Level::VTag::BitwiseOr`: field-wise disjunction, with the
rule bit-sets combined by bitwise or. -/
def VTag.orPair (a b : VTag) : VTag where
  nonManifold := a.nonManifold || b.nonManifold
  xordinary := a.xordinary || b.xordinary
  boundary := a.boundary || b.boundary
  corner := a.corner || b.corner
  infSharp := a.infSharp || b.infSharp
  infSharpEdges := a.infSharpEdges || b.infSharpEdges
  infIrregular := a.infIrregular || b.infIrregular
  semiSharp := a.semiSharp || b.semiSharp
  semiSharpEdges := a.semiSharpEdges || b.semiSharpEdges
  incomplete := a.incomplete || b.incomplete
  rule := a.rule ||| b.rule

/-- `Level::VTag::BitwiseOr(vTags, size)` over the gathered list of tags. -/
def vtagBitwiseOr (l : List VTag) : VTag :=
  l.foldl VTag.orPair {}

/-- One face-varying channel of a level, as queried by the source: linearity
(`FVarLevel::isLinear`), the per-face topology-match test
(`doesFaceFVarTopologyMatch`), and the per-vertex composite face-varying tag
(`getVertexCompositeFVarVTag`). -/
structure FVarChannel where
  isLinear : Bool := true
  faceTopologyMatch : List Bool := []
  compositeVTag : List VTag := []
deriving DecidableEq, Repr, Inhabited

/-- `Vtr::internal::Level`, reduced to the queries `topologyRefiner.cpp`
makes: component counts for the inventory, depth, per-face vertex lists and
hole flags, per-vertex tags and incident-face lists, the single-crease-patch
test, and the face-varying channels. -/
structure Level where
  numVertices : Nat := 0
  numEdges : Nat := 0
  numFaces : Nat := 0
  numFaceVerticesTotal : Nat := 0
  maxValence : Nat := 0
  depth : Nat := 0
  faceVerts : List (List Nat) := []
  faceHole : List Bool := []
  vertFaces : List (List Nat) := []
  vertTags : List VTag := []
  singleCrease : List Bool := []
  fvarChannels : List FVarChannel := []
deriving DecidableEq, Repr, Inhabited

/-- `Level::getFaceVertices(face)`. -/
def Level.getFaceVertices (l : Level) (face : Nat) : List Nat :=
  l.faceVerts.getD face []

/-- `Level::isFaceHole(face)`. -/
def Level.isFaceHole (l : Level) (face : Nat) : Bool :=
  l.faceHole.getD face false

/-- `Level::getVertexFaces(vert)`. -/
def Level.getVertexFaces (l : Level) (vert : Nat) : List Nat :=
  l.vertFaces.getD vert []

/-- The tag of one vertex, as gathered by `Level::getFaceVTags`. -/
def Level.getVertexTag (l : Level) (vert : Nat) : VTag :=
  l.vertTags.getD vert {}

/-- `Level::isSingleCreasePatch(face)`. -/
def Level.isSingleCreasePatch (l : Level) (face : Nat) : Bool :=
  l.singleCrease.getD face false

/-- `Level::getNumFVarChannels()`. -/
def Level.getNumFVarChannels (l : Level) : Nat :=
  l.fvarChannels.length

/-- `Level::doesFaceFVarTopologyMatch(face, channel)`. -/
def Level.doesFaceFVarTopologyMatch (l : Level) (face channel : Nat) : Bool :=
  ((l.fvarChannels.getD channel {}).faceTopologyMatch).getD face true

/-- `Level::getVertexCompositeFVarVTag(vert, channel)`. -/
def Level.getVertexCompositeFVarVTag (l : Level) (vert channel : Nat) : VTag :=
  ((l.fvarChannels.getD channel {}).compositeVTag).getD vert {}

/-- `Level::getFVarLevel(channel).isLinear()`. -/
def Level.fvarIsLinear (l : Level) (channel : Nat) : Bool :=
  (l.fvarChannels.getD channel {}).isLinear

/-- The aggregate (bitwise-or) tag of a face's corner vertices, as built by
`getFaceVTags` followed by `VTag::BitwiseOr` in `doesFaceHaveFeatures`. -/
def Level.faceCompVTag (l : Level) (face : Nat) : VTag :=
  vtagBitwiseOr ((l.getFaceVertices face).map l.getVertexTag)

/-- The aggregate tag of a face's corners in one face-varying channel, as
built from `getVertexCompositeFVarVTag` in
`doesFaceHaveDistinctFaceVaryingFeatures`. -/
def Level.faceCompFVarVTag (l : Level) (face channel : Nat) : VTag :=
  vtagBitwiseOr
    ((l.getFaceVertices face).map (fun v => l.getVertexCompositeFVarVTag v channel))

/-- `TopologyRefiner::UniformOptions`. -/
structure UniformOptions where
  refinementLevel : Nat := 0
  orderVerticesFromFacesFirst : Bool := false
  fullTopologyInLastLevel : Bool := false
deriving DecidableEq, Repr, Inhabited

/-- `TopologyRefiner::AdaptiveOptions`. -/
structure AdaptiveOptions where
  isolationLevel : Nat := 0
  secondaryLevel : Nat := 0
  useSingleCreasePatch : Bool := false
  useInfSharpPatch : Bool := false
  considerFVarChannels : Bool := false
  orderVerticesFromFacesFirst : Bool := false
deriving DecidableEq, Repr, Inhabited

/-- `internal::FeatureMask` -- eleven single-bit fields packed into one
unsigned int, in declaration order. -/
structure FeatureMask where
  selectXOrdinaryInterior : Bool := false
  selectXOrdinaryBoundary : Bool := false
  selectSemiSharpSingle : Bool := false
  selectSemiSharpNonSingle : Bool := false
  selectInfSharpRegularCrease : Bool := false
  selectInfSharpRegularCorner : Bool := false
  selectInfSharpIrregularDart : Bool := false
  selectInfSharpIrregularCrease : Bool := false
  selectInfSharpIrregularCorner : Bool := false
  selectNonManifold : Bool := false
  selectFVarFeatures : Bool := false
deriving DecidableEq, Repr, Inhabited

/-- The integer overlay of the mask: the eleven bit-fields packed into the
underlying `int_type` word in declaration order, which `Clear` writes as a
whole and `IsEmpty` reads as a whole. -/
def FeatureMask.toBits (m : FeatureMask) : Nat :=
  m.selectXOrdinaryInterior.toNat +
  2 * m.selectXOrdinaryBoundary.toNat +
  4 * m.selectSemiSharpSingle.toNat +
  8 * m.selectSemiSharpNonSingle.toNat +
  16 * m.selectInfSharpRegularCrease.toNat +
  32 * m.selectInfSharpRegularCorner.toNat +
  64 * m.selectInfSharpIrregularDart.toNat +
  128 * m.selectInfSharpIrregularCrease.toNat +
  256 * m.selectInfSharpIrregularCorner.toNat +
  512 * m.selectNonManifold.toNat +
  1024 * m.selectFVarFeatures.toNat

/-- `FeatureMask::Clear()` -- writes 0 over the whole word, i.e. every
bit-field becomes false.  The default constructor performs exactly this. -/
def FeatureMask.Clear (_m : FeatureMask) : FeatureMask := {}

/-- `FeatureMask::IsEmpty()` -- the whole word compared against 0. -/
def FeatureMask.IsEmpty (m : FeatureMask) : Bool :=
  m.toBits == 0

/-- `FeatureMask::InitializeFeatures(options, subdType)`. -/
def FeatureMask.InitFeatures (options : AdaptiveOptions) (subdType : SchemeType) :
    FeatureMask :=
  let useSingleCreasePatch :=
    options.useSingleCreasePatch && (GetRegularFaceSize subdType == 4)
  { selectXOrdinaryInterior := true
    selectXOrdinaryBoundary := true
    selectSemiSharpSingle := !useSingleCreasePatch
    selectSemiSharpNonSingle := true
    selectInfSharpRegularCrease := !(options.useInfSharpPatch || useSingleCreasePatch)
    selectInfSharpRegularCorner := !options.useInfSharpPatch
    selectInfSharpIrregularDart := true
    selectInfSharpIrregularCrease := true
    selectInfSharpIrregularCorner := true
    selectNonManifold := true
    selectFVarFeatures := options.considerFVarChannels }

/-- `FeatureMask::ReduceFeatures(options)` -- unconditionally disable the
extraordinary-vertex features; when `useInfSharpPatch` is set additionally
disable all inf-sharp features except the irregular-corner one. -/
def FeatureMask.ReduceFeatures (m : FeatureMask) (options : AdaptiveOptions) :
    FeatureMask :=
  let m' := { m with selectXOrdinaryInterior := false, selectXOrdinaryBoundary := false }
  if options.useInfSharpPatch then
    { m' with selectInfSharpRegularCrease := false
              selectInfSharpRegularCorner := false
              selectInfSharpIrregularDart := false
              selectInfSharpIrregularCrease := false }
  else m'

/-- `doesInfSharpFaceHaveFeatures(compVTag, featureMask)` -- the shared
inf-sharp classifier, branching on irregularity, boundary status and the
aggregate crease rule. -/
def doesInfSharpFaceHaveFeatures (compVTag : VTag) (featureMask : FeatureMask) : Bool :=
  if compVTag.infIrregular then
    if compVTag.rule &&& ruleCorner != 0 then
      featureMask.selectInfSharpIrregularCorner
    else if compVTag.rule &&& ruleCrease != 0 then
      (if compVTag.boundary then featureMask.selectXOrdinaryBoundary
       else featureMask.selectInfSharpIrregularCrease)
    else if compVTag.rule &&& ruleDart != 0 then
      featureMask.selectInfSharpIrregularDart
    else false
  else if compVTag.boundary then
    if compVTag.rule &&& ruleCorner != 0 then
      (if compVTag.corner then false else featureMask.selectInfSharpRegularCorner)
    else false
  else
    if compVTag.rule &&& ruleCorner != 0 then
      featureMask.selectInfSharpRegularCorner
    else
      featureMask.selectInfSharpRegularCrease

/-- `doesFaceHaveFeatures(level, face, featureMask)` -- the main-topology
face classifier. -/
def doesFaceHaveFeatures (level : Level) (face : Nat) (featureMask : FeatureMask) :
    Bool :=
  if featureMask.IsEmpty then false
  else
    let vTags := (level.getFaceVertices face).map level.getVertexTag
    let compFaceVTag := vtagBitwiseOr vTags
    if compFaceVTag.incomplete then false
    else if compFaceVTag.nonManifold && featureMask.selectNonManifold then true
    else if compFaceVTag.xordinary && featureMask.selectXOrdinaryInterior &&
            ((compFaceVTag.rule == ruleSmooth) ||
             (decide (level.depth < 2) &&
              vTags.any (fun t => t.xordinary && (t.rule == ruleSmooth)))) then true
    else if compFaceVTag.rule == ruleSmooth then false
    else if compFaceVTag.rule &&& ruleSmooth == 0 then true
    else if compFaceVTag.semiSharp || compFaceVTag.semiSharpEdges then
      (if featureMask.selectSemiSharpSingle && featureMask.selectSemiSharpNonSingle then
        true
       else if level.isSingleCreasePatch face then featureMask.selectSemiSharpSingle
       else featureMask.selectSemiSharpNonSingle)
    else if compFaceVTag.infSharp || compFaceVTag.infSharpEdges then
      doesInfSharpFaceHaveFeatures compFaceVTag featureMask
    else false

/-- `doesFaceHaveDistinctFaceVaryingFeatures(level, face, featureMask,
fvarChannel)` -- the face-varying classifier, run only for faces whose
face-varying topology differs from the main topology; builds its aggregate
from the per-vertex composite face-varying tags. -/
def doesFaceHaveDistinctFaceVaryingFeatures (level : Level) (face : Nat)
    (featureMask : FeatureMask) (fvarChannel : Nat) : Bool :=
  let vTags := (level.getFaceVertices face).map
    (fun v => level.getVertexCompositeFVarVTag v fvarChannel)
  let compVTag := vtagBitwiseOr vTags
  if compVTag.nonManifold && featureMask.selectNonManifold then true
  else if compVTag.xordinary && featureMask.selectXOrdinaryInterior then true
  else if compVTag.rule &&& ruleSmooth == 0 then true
  else doesInfSharpFaceHaveFeatures compVTag featureMask

/-- The `selectFace` calls the per-face body of
`TopologyRefiner::selectFeatureAdaptiveComponents` makes into the
`SparseSelector` for one face of the parent level: holes are skipped; at
depth 0 an irregular-sized face selects its full one-ring (or just itself
for a zero-neighborhood scheme) and ends processing; otherwise the face is
selected when the main classifier, or some mismatching face-varying channel,
reports a feature. -/
def faceSelectionList (subdivType : SchemeType) (level : Level)
    (featureMask : FeatureMask) (face : Nat) : List Nat :=
  let selectIrregularFaces := level.depth == 0
  let regularFaceSize := GetRegularFaceSize subdivType
  let neighborhood := GetLocalNeighborhoodSize subdivType
  if level.isFaceHole face then []
  else if selectIrregularFaces &&
          ((level.getFaceVertices face).length != regularFaceSize) then
    (if neighborhood == 0 then [face]
     else ((level.getFaceVertices face).map level.getVertexFaces).flatten)
  else
    let numFVarChannels :=
      if featureMask.selectFVarFeatures then level.getNumFVarChannels else 0
    let selFace := doesFaceHaveFeatures level face featureMask ||
      (featureMask.selectFVarFeatures &&
        (List.range numFVarChannels).any (fun channel =>
          !(level.doesFaceFVarTopologyMatch face channel) &&
          doesFaceHaveDistinctFaceVaryingFeatures level face featureMask channel))
    if selFace then [face] else []

/-- `TopologyRefiner::selectFeatureAdaptiveComponents(selector, featureMask)`
-- the resulting selection, as the list of `selectFace` calls made over all
faces of the parent level in ascending index order (an empty list models
`SparseSelector::isSelectionEmpty()`). -/
def selectFeatureAdaptiveComponents (subdivType : SchemeType) (level : Level)
    (featureMask : FeatureMask) : List Nat :=
  let selectIrregularFaces := level.depth == 0
  if featureMask.IsEmpty && !selectIrregularFaces then []
  else (List.range level.numFaces).flatMap
    (faceSelectionList subdivType level featureMask)

/-- `Sdc::Options` -- scheme options, carried through opaquely by the
refiner. -/
structure SdcOptions where
  boundaryInterpolation : Nat := 0
deriving DecidableEq, Repr, Inhabited

/-- `Vtr::internal::Refinement::Options` -- the per-pass options handed to
each refinement's `refine()` call. -/
structure RefineOptions where
  sparse : Bool := false
  minimalTopology : Bool := false
  faceVertsFirst : Bool := false
deriving DecidableEq, Repr, Inhabited

/-- A `Vtr::internal::Refinement` (Quad- or Tri-) between a parent and the
child level it produced, recording the options its `refine()` ran with. -/
structure Refinement where
  parent : Level := {}
  child : Level := {}
  ropts : RefineOptions := {}
deriving DecidableEq, Repr, Inhabited

/-- The state of a `Far::TopologyRefiner`: the level and refinement stacks
plus the scalar bookkeeping members. -/
structure TopologyRefiner where
  subdivType : SchemeType := SchemeType.catmark
  subdivOptions : SdcOptions := {}
  isUniform : Bool := true
  hasHoles : Bool := false
  maxLevel : Nat := 0
  uniformOptions : UniformOptions := {}
  adaptiveOptions : AdaptiveOptions := {}
  totalVertices : Nat := 0
  totalEdges : Nat := 0
  totalFaces : Nat := 0
  totalFaceVertices : Nat := 0
  maxValence : Nat := 0
  levels : List Level := []
  refinements : List Refinement := []
deriving DecidableEq, Repr, Inhabited

/-- The `TopologyRefiner` constructor: one (still empty) base level, no
refinements, zero inventory. -/
def TopologyRefiner.create (schemeType : SchemeType) (schemeOptions : SdcOptions) :
    TopologyRefiner :=
  { subdivType := schemeType
    subdivOptions := schemeOptions
    levels := [{}]
    refinements := [] }

/-- `TopologyRefiner::initializeInventory()`. -/
def TopologyRefiner.initInventory (tr : TopologyRefiner) : TopologyRefiner :=
  if tr.levels.length != 0 then
    let baseLevel := tr.levels.headD {}
    { tr with totalVertices := baseLevel.numVertices
              totalEdges := baseLevel.numEdges
              totalFaces := baseLevel.numFaces
              totalFaceVertices := baseLevel.numFaceVerticesTotal
              maxValence := baseLevel.maxValence }
  else
    { tr with totalVertices := 0, totalEdges := 0, totalFaces := 0,
              totalFaceVertices := 0, maxValence := 0 }

/-- `TopologyRefiner::updateInventory(newLevel)`. -/
def TopologyRefiner.updateInventory (tr : TopologyRefiner) (newLevel : Level) :
    TopologyRefiner :=
  { tr with totalVertices := tr.totalVertices + newLevel.numVertices
            totalEdges := tr.totalEdges + newLevel.numEdges
            totalFaces := tr.totalFaces + newLevel.numFaces
            totalFaceVertices := tr.totalFaceVertices + newLevel.numFaceVerticesTotal
            maxValence := max tr.maxValence newLevel.maxValence }

/-- `TopologyRefiner::appendLevel(newLevel)`. -/
def TopologyRefiner.appendLevel (tr : TopologyRefiner) (newLevel : Level) :
    TopologyRefiner :=
  TopologyRefiner.updateInventory { tr with levels := tr.levels ++ [newLevel] } newLevel

/-- `TopologyRefiner::appendRefinement(newRefinement)`. -/
def TopologyRefiner.appendRefinement (tr : TopologyRefiner)
    (newRefinement : Refinement) : TopologyRefiner :=
  { tr with refinements := tr.refinements ++ [newRefinement] }

/-- `TopologyRefiner::Unrefine()` -- drop every level beyond the base, reset
the inventory from the base level, and clear the refinements. -/
def TopologyRefiner.Unrefine (tr : TopologyRefiner) : TopologyRefiner :=
  let tr' :=
    if tr.levels.length != 0 then
      TopologyRefiner.initInventory { tr with levels := tr.levels.take 1 }
    else tr
  { tr' with refinements := [] }

/-- The per-pass options of uniform pass `i`, as computed at the top of the
`RefineUniform` loop body: topology is minimized exactly on the last pass
when `fullTopologyInLastLevel` is not requested. -/
def uniformRefineOptions (options : UniformOptions) (i : Nat) : RefineOptions :=
  { sparse := false
    minimalTopology :=
      if options.fullTopologyInLastLevel then false else i == options.refinementLevel
    faceVertsFirst := options.orderVerticesFromFacesFirst }

/-- The loop of `RefineUniform`, with `rem` passes remaining and `i` the
current pass depth; `childGen` stands for the external
`Quad/TriRefinement::refine()` producing the child level from the parent. -/
def uniformLoop (childGen : Level → RefineOptions → Level)
    (options : UniformOptions) :
    Nat → Nat → TopologyRefiner → TopologyRefiner
  | 0, _, tr => tr
  | rem + 1, i, tr =>
    let refineOpts := uniformRefineOptions options i
    let parentLevel := tr.levels.getD (i - 1) {}
    let childLevel := childGen parentLevel refineOpts
    let tr' := (tr.appendLevel childLevel).appendRefinement
      { parent := parentLevel, child := childLevel, ropts := refineOpts }
    uniformLoop childGen options rem (i + 1) tr'

/-- Error message of `RefineUniform` on an uninitialized base level. -/
def errUniformUninit : String :=
  "Failure in TopologyRefiner::RefineUniform() -- base level is uninitialized."

/-- Error message of `RefineUniform` when refinements were already applied. -/
def errUniformApplied : String :=
  "Failure in TopologyRefiner::RefineUniform() -- previous refinements already applied."

/-- `TopologyRefiner::RefineUniform(options)`; the `Option String` result is
the recoverable `FAR_RUNTIME_ERROR` channel. -/
def RefineUniform (childGen : Level → RefineOptions → Level)
    (tr : TopologyRefiner) (options : UniformOptions) :
    TopologyRefiner × Option String :=
  if (tr.levels.headD {}).numVertices == 0 then
    (tr, some errUniformUninit)
  else if tr.refinements.length != 0 then
    (tr, some errUniformApplied)
  else
    let tr' := { tr with uniformOptions := options
                         isUniform := true
                         maxLevel := options.refinementLevel }
    (uniformLoop childGen options options.refinementLevel 1 tr', none)

/-- The loop of `RefineAdaptive`, with `rem` passes remaining and `i` the
current pass depth: select from the parent level with the mask chosen by
depth; stop (discarding the fresh refinement and child level) when the
selection is empty, otherwise refine and append level and refinement. -/
def adaptiveLoop (childGen : Level → RefineOptions → List Nat → Level)
    (refineOpts : RefineOptions) (shallowLevel : Nat)
    (moreFeaturesMask lessFeaturesMask : FeatureMask) (subdivType : SchemeType) :
    Nat → Nat → TopologyRefiner → TopologyRefiner
  | 0, _, tr => tr
  | rem + 1, i, tr =>
    let parentLevel := tr.levels.getD (i - 1) {}
    let mask := if i ≤ shallowLevel then moreFeaturesMask else lessFeaturesMask
    let selection := selectFeatureAdaptiveComponents subdivType parentLevel mask
    if selection.isEmpty then tr
    else
      let childLevel := childGen parentLevel refineOpts selection
      let tr' := (tr.appendLevel childLevel).appendRefinement
        { parent := parentLevel, child := childLevel, ropts := refineOpts }
      adaptiveLoop childGen refineOpts shallowLevel moreFeaturesMask
        lessFeaturesMask subdivType rem (i + 1) tr'

/-- Error message of `RefineAdaptive` on an uninitialized base level. -/
def errAdaptiveUninit : String :=
  "Failure in TopologyRefiner::RefineAdaptive() -- base level is uninitialized."

/-- Error message of `RefineAdaptive` when refinements were already applied. -/
def errAdaptiveApplied : String :=
  "Failure in TopologyRefiner::RefineAdaptive() -- previous refinements already applied."

/-- Error message of `RefineAdaptive` for a non-Catmark scheme. -/
def errAdaptiveScheme : String :=
  "Failure in TopologyRefiner::RefineAdaptive() -- currently only supported for Catmark scheme."

/-- `TopologyRefiner::RefineAdaptive(options)`; the `Option String` result is
the recoverable `FAR_RUNTIME_ERROR` channel. -/
def RefineAdaptive (childGen : Level → RefineOptions → List Nat → Level)
    (tr : TopologyRefiner) (options : AdaptiveOptions) :
    TopologyRefiner × Option String :=
  if (tr.levels.headD {}).numVertices == 0 then
    (tr, some errAdaptiveUninit)
  else if tr.refinements.length != 0 then
    (tr, some errAdaptiveApplied)
  else if tr.subdivType != SchemeType.catmark then
    (tr, some errAdaptiveScheme)
  else
    let tr1 := { tr with isUniform := false, adaptiveOptions := options }
    let shallowLevel := min options.secondaryLevel options.isolationLevel
    let deeperLevel := options.isolationLevel
    let potentialMaxLevel := deeperLevel
    let moreMask0 := FeatureMask.InitFeatures options tr1.subdivType
    let lessMask0 :=
      if shallowLevel < potentialMaxLevel then moreMask0.ReduceFeatures options
      else moreMask0
    let masks :=
      if GetLocalNeighborhoodSize tr1.subdivType == 0 then
        (moreMask0.Clear, lessMask0.Clear)
      else if moreMask0.selectFVarFeatures &&
              !((List.range (tr1.levels.headD {}).getNumFVarChannels).any
                (fun channel => !((tr1.levels.headD {}).fvarIsLinear channel))) then
        ({ moreMask0 with selectFVarFeatures := false },
         { lessMask0 with selectFVarFeatures := false })
      else (moreMask0, lessMask0)
    let refineOpts : RefineOptions :=
      { sparse := true
        minimalTopology := false
        faceVertsFirst := options.orderVerticesFromFacesFirst }
    let tr2 := adaptiveLoop childGen refineOpts shallowLevel masks.1 masks.2
      tr1.subdivType potentialMaxLevel 1 tr1
    ({ tr2 with maxLevel := tr2.refinements.length }, none)

/-!  Concrete inputs used by witnesses and counterexamples. -/

/-- A vertex tag marked incomplete and nothing else. -/
def vtagIncomplete : VTag := { incomplete := true }

/-- A depth-1 level with a single quad face all of whose corners carry an
incomplete main tag, and one non-linear face-varying channel whose composite
corner tags are also incomplete and whose topology does not match the face. -/
def lvlIncFVar : Level :=
  { numVertices := 1
    numFaces := 1
    depth := 1
    faceVerts := [[0, 0, 0, 0]]
    faceHole := [false]
    vertFaces := [[0]]
    vertTags := [vtagIncomplete]
    fvarChannels := [{ isLinear := false
                       faceTopologyMatch := [false]
                       compositeVTag := [vtagIncomplete] }] }

/-- A mask enabling only face-varying feature consideration. -/
def maskFVarOnly : FeatureMask := { selectFVarFeatures := true }

/-- A composite tag whose rule set is smooth-or-crease (one smooth corner and
one creased corner), with no other feature bits. -/
def vtagSmoothCrease : VTag := { rule := 5 }

/-- A depth-1 level with a single quad face whose face-varying composite
corner tag is `vtagSmoothCrease` in a mismatching non-linear channel. -/
def lvlFVarSmoothCrease : Level :=
  { numVertices := 1
    numFaces := 1
    depth := 1
    faceVerts := [[0, 0, 0, 0]]
    faceHole := [false]
    vertFaces := [[0]]
    vertTags := [{}]
    fvarChannels := [{ isLinear := false
                       faceTopologyMatch := [false]
                       compositeVTag := [vtagSmoothCrease] }] }

/-- A depth-0 base level: one pentagonal face (face 0) among regular quads,
face 1 sharing vertices 0 and 1 with it, face 2 disjoint; all tags smooth. -/
def lvlPentagon : Level :=
  { numVertices := 11
    numFaces := 3
    depth := 0
    faceVerts := [[0, 1, 2, 3, 4], [0, 1, 5, 6], [7, 8, 9, 10]]
    faceHole := [false, false, false]
    vertFaces := [[0, 1], [0, 1], [0], [0], [0], [1], [1], [2], [2], [2], [2]]
    vertTags := List.replicate 11 {} }

/-- A populated base level with one vertex and no faces. -/
def baseOneVert : Level := { numVertices := 1 }

/-- A freshly constructed Catmark refiner whose base level was populated with
`baseOneVert`. -/
def trBaseOneVert : TopologyRefiner :=
  { TopologyRefiner.create SchemeType.catmark {} with levels := [baseOneVert] }

/-- A trivial stand-in for the external uniform `refine()` step. -/
def cgUniformTriv : Level → RefineOptions → Level := fun _ _ => {}

/-- A trivial stand-in for the external sparse `refine()` step. -/
def cgAdaptiveTriv : Level → RefineOptions → List Nat → Level := fun _ _ _ => {}

/-- Uniform options requesting depth 2 without full topology in the last
level. -/
def optsDepth2 : UniformOptions := { refinementLevel := 2 }

/-- The refiner state after a depth-2 uniform refinement of `trBaseOneVert`. -/
def resUniformDepth2 : TopologyRefiner :=
  (RefineUniform cgUniformTriv trBaseOneVert optsDepth2).1

/-- An irregular inf-sharp tag with crease rule, interior. -/
def tagIrregCrease : VTag := { infIrregular := true, rule := ruleCrease }

/-- A regular boundary tag with corner rule at an explicitly sharpened
corner. -/
def tagBoundaryCornerSharp : VTag := { boundary := true, corner := true, rule := ruleCorner }

/-- A regular boundary tag whose rule set has no corner bit. -/
def tagBoundaryNoCorner : VTag := { boundary := true, rule := ruleCrease }

/-!  Helper lemmas. -/

/-- A chain of boolean short-circuit tests is its disjunction. -/
theorem boolIfChain (a b c d : Bool) :
    (if a then true else if b then true else if c then true else d)
      = (a || b || c || d) := by
  cases a <;> cases b <;> cases c <;> simp

/-!  Claim theorems. -/

/-- C10: `IsEmpty()` holds exactly when all eleven feature flags are false,
and `Clear()` (which the default constructor performs) makes every one of the
eleven flags false, so the classifiers' empty-mask short-circuit fires exactly
when no feature category is eligible. -/
theorem featureMask_isEmpty_iff_all_false :
    ∀ m : FeatureMask,
      (m.IsEmpty = true ↔
        (m.selectXOrdinaryInterior = false ∧ m.selectXOrdinaryBoundary = false ∧
         m.selectSemiSharpSingle = false ∧ m.selectSemiSharpNonSingle = false ∧
         m.selectInfSharpRegularCrease = false ∧ m.selectInfSharpRegularCorner = false ∧
         m.selectInfSharpIrregularDart = false ∧ m.selectInfSharpIrregularCrease = false ∧
         m.selectInfSharpIrregularCorner = false ∧ m.selectNonManifold = false ∧
         m.selectFVarFeatures = false))
      ∧ m.Clear = ({} : FeatureMask)
      ∧ (m.Clear).IsEmpty = true := by
  intro m
  obtain ⟨a, b, c, d, e, f, g, h, i, j, k⟩ := m
  revert a b c d e f g h i j k
  decide

/-- C4: `ReduceFeatures` clears exactly the two extraordinary flags always,
clears the four non-corner inf-sharp flags exactly when `useInfSharpPatch` is
set, and leaves `infSharpIrregularCorner`, the two semi-sharp flags,
`nonManifold` and `fvarFeatures` unchanged. -/
theorem reduceFeatures_exact_frame :
    ∀ (m : FeatureMask) (options : AdaptiveOptions),
      (m.ReduceFeatures options).selectXOrdinaryInterior = false ∧
      (m.ReduceFeatures options).selectXOrdinaryBoundary = false ∧
      (m.ReduceFeatures options).selectInfSharpRegularCrease
        = (if options.useInfSharpPatch then false else m.selectInfSharpRegularCrease) ∧
      (m.ReduceFeatures options).selectInfSharpRegularCorner
        = (if options.useInfSharpPatch then false else m.selectInfSharpRegularCorner) ∧
      (m.ReduceFeatures options).selectInfSharpIrregularDart
        = (if options.useInfSharpPatch then false else m.selectInfSharpIrregularDart) ∧
      (m.ReduceFeatures options).selectInfSharpIrregularCrease
        = (if options.useInfSharpPatch then false else m.selectInfSharpIrregularCrease) ∧
      (m.ReduceFeatures options).selectInfSharpIrregularCorner
        = m.selectInfSharpIrregularCorner ∧
      (m.ReduceFeatures options).selectSemiSharpSingle = m.selectSemiSharpSingle ∧
      (m.ReduceFeatures options).selectSemiSharpNonSingle = m.selectSemiSharpNonSingle ∧
      (m.ReduceFeatures options).selectNonManifold = m.selectNonManifold ∧
      (m.ReduceFeatures options).selectFVarFeatures = m.selectFVarFeatures := by
  intro m options
  cases hP : options.useInfSharpPatch <;>
    simp [FeatureMask.ReduceFeatures, hP]

/-- C5: the inf-sharp classifier maps an irregular tag whose rule set has the
crease bit (and, per the branch order, no corner bit) to `xordinaryBoundary`
on a boundary and `infSharpIrregularCrease` otherwise; a regular boundary
tag with the corner rule to false at an explicitly sharpened corner and to
`infSharpRegularCorner` otherwise; and a regular boundary tag without the
corner rule to false. -/
theorem infSharp_classifier_cases :
    ∀ (t : VTag) (m : FeatureMask),
      (t.infIrregular = true → t.rule &&& ruleCorner = 0 → t.rule &&& ruleCrease ≠ 0 →
        doesInfSharpFaceHaveFeatures t m
          = (if t.boundary then m.selectXOrdinaryBoundary
             else m.selectInfSharpIrregularCrease))
      ∧ (t.infIrregular = false → t.boundary = true → t.rule &&& ruleCorner ≠ 0 →
          doesInfSharpFaceHaveFeatures t m
            = (if t.corner then false else m.selectInfSharpRegularCorner))
      ∧ (t.infIrregular = false → t.boundary = true → t.rule &&& ruleCorner = 0 →
          doesInfSharpFaceHaveFeatures t m = false) := by
  intro t m
  refine ⟨?_, ?_, ?_⟩ <;> intro h1 h2 h3 <;>
    simp [doesInfSharpFaceHaveFeatures, h1, h2, h3]

/-- C5 witness: the three branch equations instantiated at concrete tags. -/
theorem infSharp_classifier_cases_witness :
    (doesInfSharpFaceHaveFeatures tagIrregCrease {}
      = (if tagIrregCrease.boundary then ({} : FeatureMask).selectXOrdinaryBoundary
         else ({} : FeatureMask).selectInfSharpIrregularCrease))
    ∧ (doesInfSharpFaceHaveFeatures tagBoundaryCornerSharp {}
        = (if tagBoundaryCornerSharp.corner then false
           else ({} : FeatureMask).selectInfSharpRegularCorner))
    ∧ (doesInfSharpFaceHaveFeatures tagBoundaryNoCorner {} = false) :=
  ⟨(infSharp_classifier_cases tagIrregCrease {}).1 (by decide) (by decide) (by decide),
   (infSharp_classifier_cases tagBoundaryCornerSharp {}).2.1 (by decide) (by decide)
     (by decide),
   (infSharp_classifier_cases tagBoundaryNoCorner {}).2.2 (by decide) (by decide)
     (by decide)⟩

/-- C6 counterexample: a face whose face-varying aggregate rule is not fully
smooth (it is smooth-or-crease), not non-manifold and not extraordinary, on
which the face-varying classifier nevertheless returns false -- the claim's
"true if the aggregate crease rule is not fully smooth" fails as stated. -/
theorem fvar_classifier_not_fully_smooth_counterexample :
    (lvlFVarSmoothCrease.faceCompFVarVTag 0 0).rule ≠ ruleSmooth ∧
    (lvlFVarSmoothCrease.faceCompFVarVTag 0 0).nonManifold = false ∧
    (lvlFVarSmoothCrease.faceCompFVarVTag 0 0).xordinary = false ∧
    doesFaceHaveDistinctFaceVaryingFeatures lvlFVarSmoothCrease 0 {} 0 = false := by
  decide

/-- C6 amended: the face-varying classifier builds the aggregate as the
bitwise or of the composite face-varying tags of the face's corners and
returns true when the aggregate is non-manifold with `nonManifold` set, or
extraordinary with `xordinaryInterior` set, or when no corner contributes a
smooth rule bit (rather than "not fully smooth"); otherwise it returns the
inf-sharp classifier's result on the aggregate. -/
theorem fvar_classifier_characterization :
    ∀ (level : Level) (face : Nat) (m : FeatureMask) (channel : Nat),
      doesFaceHaveDistinctFaceVaryingFeatures level face m channel
        = ((level.faceCompFVarVTag face channel).nonManifold && m.selectNonManifold
           || ((level.faceCompFVarVTag face channel).xordinary
               && m.selectXOrdinaryInterior)
           || ((level.faceCompFVarVTag face channel).rule &&& ruleSmooth == 0)
           || doesInfSharpFaceHaveFeatures (level.faceCompFVarVTag face channel) m) := by
  intro level face m channel
  rw [doesFaceHaveDistinctFaceVaryingFeatures, Level.faceCompFVarVTag, boolIfChain]

/-- C3 counterexample: `lvlIncFVar`'s only face has an incomplete aggregate
corner tag on the main topology and on the face-varying channel, yet the
adaptive selection driver registers it (through the face-varying path, which
performs no incomplete check). -/
theorem incomplete_face_selected_via_fvar_counterexample :
    (lvlIncFVar.faceCompVTag 0).incomplete = true ∧
    (lvlIncFVar.faceCompFVarVTag 0 0).incomplete = true ∧
    0 ∈ selectFeatureAdaptiveComponents SchemeType.catmark lvlIncFVar maskFVarOnly := by
  decide

/-- C3 amended: on the main-topology path a face whose aggregate corner tag
is marked incomplete never passes the feature test (the face-varying path
performs no such check and can register such a face). -/
theorem main_classifier_rejects_incomplete :
    ∀ (level : Level) (face : Nat) (m : FeatureMask),
      (level.faceCompVTag face).incomplete = true →
      doesFaceHaveFeatures level face m = false := by
  intro level face m h
  rw [Level.faceCompVTag] at h
  by_cases hE : m.IsEmpty = true
  · simp [doesFaceHaveFeatures, hE]
  · simp [doesFaceHaveFeatures, hE, h]

/-- C3 witness: the amended theorem applied to the concrete incomplete
face. -/
theorem main_classifier_rejects_incomplete_witness :
    doesFaceHaveFeatures lvlIncFVar 0 maskFVarOnly = false :=
  main_classifier_rejects_incomplete lvlIncFVar 0 maskFVarOnly (by decide)

/-- The per-pass `minimalTopology` flags recorded by the uniform loop: pass
`j` uses `uniformRefineOptions options j`. -/
theorem uniformLoop_minimalTopology (cg : Level → RefineOptions → Level)
    (options : UniformOptions) :
    ∀ (rem i : Nat) (tr : TopologyRefiner),
      (uniformLoop cg options rem i tr).refinements.map (fun r => r.ropts.minimalTopology)
        = tr.refinements.map (fun r => r.ropts.minimalTopology)
          ++ (List.range' i rem).map
              (fun j => (uniformRefineOptions options j).minimalTopology)
  | 0, i, tr => by simp [uniformLoop]
  | rem + 1, i, tr => by
    rw [uniformLoop, uniformLoop_minimalTopology cg options rem (i + 1),
        List.range'_succ]
    simp [TopologyRefiner.appendRefinement, TopologyRefiner.appendLevel,
          TopologyRefiner.updateInventory]

/-- C9 counterexample: a depth-2 uniform refinement with
`fullTopologyInLastLevel` unset keeps full topology on the intermediate pass
(depth 1, strictly below the requested depth) and minimizes only the last
pass -- the claim's "topology of intermediate levels is minimized" fails. -/
theorem uniform_intermediate_minimized_counterexample :
    optsDepth2.fullTopologyInLastLevel = false ∧
    optsDepth2.refinementLevel = 2 ∧
    resUniformDepth2.refinements.length = 2 ∧
    (resUniformDepth2.refinements.getD 0 {}).ropts.minimalTopology = false ∧
    (resUniformDepth2.refinements.getD 1 {}).ropts.minimalTopology = true := by
  decide

/-- C9 amended: on every successful `RefineUniform` run, pass `i` minimizes
topology exactly when `fullTopologyInLastLevel` is unset and `i` is the last
pass; in particular the last level keeps full topology iff the option is set,
and intermediate levels always keep full topology. -/
theorem uniform_minimal_topology_only_last :
    ∀ (childGen : Level → RefineOptions → Level) (tr : TopologyRefiner)
      (options : UniformOptions),
      (RefineUniform childGen tr options).2 = none →
      ((RefineUniform childGen tr options).1.refinements.map
          (fun r => r.ropts.minimalTopology)
        = (List.range' 1 options.refinementLevel).map
            (fun i => if options.fullTopologyInLastLevel then false
                      else (i == options.refinementLevel)))
      ∧ (0 < options.refinementLevel →
          ((RefineUniform childGen tr options).1.refinements.map
              (fun r => r.ropts.minimalTopology)).getLastD false
            = !options.fullTopologyInLastLevel) := by
  intro childGen tr options h
  cases hB : ((tr.levels.headD {}).numVertices == 0) with
  | true =>
    rw [RefineUniform, if_pos hB] at h
    simp at h
  | false =>
    cases hB2 : (tr.refinements.length != 0) with
    | true =>
      rw [RefineUniform, if_neg (by simpa using hB), if_pos hB2] at h
      simp at h
    | false =>
      have hnil : tr.refinements = [] := by simpa using hB2
      rw [RefineUniform, if_neg (by simpa using hB), if_neg (by simpa using hB2)]
      have hmap : (uniformLoop childGen options options.refinementLevel 1
            { tr with uniformOptions := options, isUniform := true,
                      maxLevel := options.refinementLevel },
          (none : Option String)).1.refinements.map (fun r => r.ropts.minimalTopology)
          = (List.range' 1 options.refinementLevel).map
              (fun i => if options.fullTopologyInLastLevel then false
                        else (i == options.refinementLevel)) := by
        rw [uniformLoop_minimalTopology]
        simp [hnil, uniformRefineOptions]
      refine ⟨hmap, ?_⟩
      intro hn
      rw [hmap, List.getLastD_eq_getLast?, List.getLast?_map, List.getLast?_range']
      have hne : options.refinementLevel ≠ 0 := Nat.pos_iff_ne_zero.mp hn
      simp only [hne, if_false, Option.map_some, Option.getD_some]
      cases hft : options.fullTopologyInLastLevel <;> simp

/-- C9 witness: the amended theorem applied to the concrete depth-2 run. -/
theorem uniform_minimal_topology_only_last_witness :
    ((RefineUniform cgUniformTriv trBaseOneVert optsDepth2).1.refinements.map
        (fun r => r.ropts.minimalTopology)
      = (List.range' 1 optsDepth2.refinementLevel).map
          (fun i => if optsDepth2.fullTopologyInLastLevel then false
                    else (i == optsDepth2.refinementLevel)))
    ∧ ((RefineUniform cgUniformTriv trBaseOneVert optsDepth2).1.refinements.map
          (fun r => r.ropts.minimalTopology)).getLastD false
        = !optsDepth2.fullTopologyInLastLevel := by
  have h := uniform_minimal_topology_only_last cgUniformTriv trBaseOneVert optsDepth2
    (by decide)
  exact ⟨h.1, h.2 (by decide)⟩

/-- C8: when a precondition of `RefineUniform` or `RefineAdaptive` is
violated (uninitialized base level, refinements already applied, or -- for
adaptive -- a non-Catmark scheme), the call reports a recoverable runtime
error and returns the refiner state completely unchanged. -/
theorem refine_precondition_noop :
    ∀ (cgU : Level → RefineOptions → Level)
      (cgA : Level → RefineOptions → List Nat → Level)
      (tr : TopologyRefiner) (uopts : UniformOptions) (aopts : AdaptiveOptions),
      ((tr.levels.headD {}).numVertices = 0 ∨ tr.refinements.length ≠ 0 →
        (RefineUniform cgU tr uopts).1 = tr
        ∧ (RefineUniform cgU tr uopts).2.isSome = true)
      ∧ ((tr.levels.headD {}).numVertices = 0 ∨ tr.refinements.length ≠ 0 ∨
          tr.subdivType ≠ SchemeType.catmark →
        (RefineAdaptive cgA tr aopts).1 = tr
        ∧ (RefineAdaptive cgA tr aopts).2.isSome = true) := by
  intro cgU cgA tr uopts aopts
  constructor
  · intro h
    rcases h with h | h
    · rw [RefineUniform, if_pos (by simpa using h)]
      exact ⟨rfl, rfl⟩
    · cases hB : ((tr.levels.headD {}).numVertices == 0) with
      | true =>
        rw [RefineUniform, if_pos hB]
        exact ⟨rfl, rfl⟩
      | false =>
        rw [RefineUniform, if_neg (by simpa using hB), if_pos (by simpa using h)]
        exact ⟨rfl, rfl⟩
  · intro h
    rcases h with h | h | h
    · rw [RefineAdaptive, if_pos (by simpa using h)]
      exact ⟨rfl, rfl⟩
    · cases hB : ((tr.levels.headD {}).numVertices == 0) with
      | true =>
        rw [RefineAdaptive, if_pos hB]
        exact ⟨rfl, rfl⟩
      | false =>
        rw [RefineAdaptive, if_neg (by simpa using hB), if_pos (by simpa using h)]
        exact ⟨rfl, rfl⟩
    · cases hB : ((tr.levels.headD {}).numVertices == 0) with
      | true =>
        rw [RefineAdaptive, if_pos hB]
        exact ⟨rfl, rfl⟩
      | false =>
        cases hB2 : (tr.refinements.length != 0) with
        | true =>
          rw [RefineAdaptive, if_neg (by simpa using hB), if_pos hB2]
          exact ⟨rfl, rfl⟩
        | false =>
          rw [RefineAdaptive, if_neg (by simpa using hB), if_neg (by simpa using hB2),
              if_pos (by simpa using h)]
          exact ⟨rfl, rfl⟩

/-- C8 witness: both calls on a freshly constructed (empty-base) refiner. -/
theorem refine_precondition_noop_witness :
    ((RefineUniform cgUniformTriv (TopologyRefiner.create SchemeType.catmark {}) {}).1
        = TopologyRefiner.create SchemeType.catmark {}
      ∧ (RefineUniform cgUniformTriv
          (TopologyRefiner.create SchemeType.catmark {}) {}).2.isSome = true)
    ∧ ((RefineAdaptive cgAdaptiveTriv (TopologyRefiner.create SchemeType.catmark {}) {}).1
        = TopologyRefiner.create SchemeType.catmark {}
      ∧ (RefineAdaptive cgAdaptiveTriv
          (TopologyRefiner.create SchemeType.catmark {}) {}).2.isSome = true) := by
  have h := refine_precondition_noop cgUniformTriv cgAdaptiveTriv
    (TopologyRefiner.create SchemeType.catmark {}) {} {}
  exact ⟨h.1 (Or.inl (by decide)), h.2 (Or.inl (by decide))⟩

/-- Appending one level and one refinement together grows each stack by
exactly one. -/
theorem append_pair_lengths (tr : TopologyRefiner) (lvl : Level) (r : Refinement) :
    ((tr.appendLevel lvl).appendRefinement r).levels.length = tr.levels.length + 1
    ∧ ((tr.appendLevel lvl).appendRefinement r).refinements.length
        = tr.refinements.length + 1 := by
  simp [TopologyRefiner.appendLevel, TopologyRefiner.appendRefinement,
        TopologyRefiner.updateInventory]

/-- The uniform refinement loop preserves `levels = refinements + 1`. -/
theorem uniformLoop_inv (cg : Level → RefineOptions → Level)
    (options : UniformOptions) :
    ∀ (rem i : Nat) (tr : TopologyRefiner),
      tr.levels.length = tr.refinements.length + 1 →
      (uniformLoop cg options rem i tr).levels.length
        = (uniformLoop cg options rem i tr).refinements.length + 1
  | 0, _, tr, h => by simpa [uniformLoop] using h
  | rem + 1, i, tr, h => by
    rw [uniformLoop]
    exact uniformLoop_inv cg options rem (i + 1) _ (by
      simp [TopologyRefiner.appendLevel, TopologyRefiner.appendRefinement,
            TopologyRefiner.updateInventory, h])

/-- The adaptive refinement loop preserves `levels = refinements + 1`. -/
theorem adaptiveLoop_inv (cg : Level → RefineOptions → List Nat → Level)
    (ropts : RefineOptions) (shallow : Nat) (mF lF : FeatureMask)
    (st : SchemeType) :
    ∀ (rem i : Nat) (tr : TopologyRefiner),
      tr.levels.length = tr.refinements.length + 1 →
      (adaptiveLoop cg ropts shallow mF lF st rem i tr).levels.length
        = (adaptiveLoop cg ropts shallow mF lF st rem i tr).refinements.length + 1
  | 0, _, tr, h => by simpa [adaptiveLoop] using h
  | rem + 1, i, tr, h => by
    simp only [adaptiveLoop]
    split <;> split <;>
      first
        | exact h
        | exact adaptiveLoop_inv cg ropts shallow mF lF st rem (i + 1) _ (by
            simp [TopologyRefiner.appendLevel, TopologyRefiner.appendRefinement,
                  TopologyRefiner.updateInventory, h])

/-- C1: in every reachable refiner state the number of levels equals the
number of refinements plus one (hence at least one): the constructor creates
one level and zero refinements, each refinement pass appends exactly one
level and one refinement together, both refinement entry points preserve the
invariant whether they fail or succeed, and `Unrefine` returns the hierarchy
to one level and zero refinements. -/
theorem refiner_levels_eq_refinements_succ :
    (∀ (st : SchemeType) (so : SdcOptions),
      (TopologyRefiner.create st so).levels.length = 1
      ∧ (TopologyRefiner.create st so).refinements.length = 0)
    ∧ (∀ (tr : TopologyRefiner) (lvl : Level) (r : Refinement),
        ((tr.appendLevel lvl).appendRefinement r).levels.length = tr.levels.length + 1
        ∧ ((tr.appendLevel lvl).appendRefinement r).refinements.length
            = tr.refinements.length + 1)
    ∧ (∀ (cg : Level → RefineOptions → Level) (tr : TopologyRefiner)
        (options : UniformOptions),
        tr.levels.length = tr.refinements.length + 1 →
        (RefineUniform cg tr options).1.levels.length
          = (RefineUniform cg tr options).1.refinements.length + 1)
    ∧ (∀ (cg : Level → RefineOptions → List Nat → Level) (tr : TopologyRefiner)
        (options : AdaptiveOptions),
        tr.levels.length = tr.refinements.length + 1 →
        (RefineAdaptive cg tr options).1.levels.length
          = (RefineAdaptive cg tr options).1.refinements.length + 1)
    ∧ (∀ tr : TopologyRefiner,
        tr.levels.length = tr.refinements.length + 1 →
        tr.Unrefine.levels.length = 1 ∧ tr.Unrefine.refinements.length = 0) := by
  refine ⟨fun st so => ⟨rfl, rfl⟩, append_pair_lengths, ?_, ?_, ?_⟩
  · intro cg tr options h
    cases hB : ((tr.levels.headD {}).numVertices == 0) with
    | true =>
      rw [RefineUniform, if_pos hB]
      exact h
    | false =>
      cases hB2 : (tr.refinements.length != 0) with
      | true =>
        rw [RefineUniform, if_neg (by simpa using hB), if_pos hB2]
        exact h
      | false =>
        rw [RefineUniform, if_neg (by simpa using hB), if_neg (by simpa using hB2)]
        exact uniformLoop_inv cg options options.refinementLevel 1 _ (by simpa using h)
  · intro cg tr options h
    cases hB : ((tr.levels.headD {}).numVertices == 0) with
    | true =>
      rw [RefineAdaptive, if_pos hB]
      exact h
    | false =>
      cases hB2 : (tr.refinements.length != 0) with
      | true =>
        rw [RefineAdaptive, if_neg (by simpa using hB), if_pos hB2]
        exact h
      | false =>
        cases hB3 : (tr.subdivType != SchemeType.catmark) with
        | true =>
          rw [RefineAdaptive, if_neg (by simpa using hB), if_neg (by simpa using hB2),
              if_pos hB3]
          exact h
        | false =>
          rw [RefineAdaptive, if_neg (by simpa using hB), if_neg (by simpa using hB2),
              if_neg (by simpa using hB3)]
          simpa using adaptiveLoop_inv _ _ _ _ _ _ options.isolationLevel 1 _
            (by simpa using h)
  · intro tr h
    have hlen : (tr.levels.length != 0) = true := by simp [h]
    have hne : tr.levels ≠ [] := List.ne_nil_of_length_pos (by omega)
    rw [TopologyRefiner.Unrefine]
    simp only [hlen, if_true]
    simp [TopologyRefiner.initInventory, hne, List.length_take]
    omega

/-- C1 witness: the invariant instantiated on concrete uniform, adaptive and
unrefine runs. -/
theorem refiner_levels_eq_refinements_succ_witness :
    ((RefineUniform cgUniformTriv trBaseOneVert optsDepth2).1.levels.length
      = (RefineUniform cgUniformTriv trBaseOneVert optsDepth2).1.refinements.length + 1)
    ∧ ((RefineAdaptive cgAdaptiveTriv trBaseOneVert { isolationLevel := 2 }).1.levels.length
      = (RefineAdaptive cgAdaptiveTriv trBaseOneVert
          { isolationLevel := 2 }).1.refinements.length + 1)
    ∧ (trBaseOneVert.Unrefine.levels.length = 1
      ∧ trBaseOneVert.Unrefine.refinements.length = 0) := by
  have h := refiner_levels_eq_refinements_succ
  exact ⟨h.2.2.1 cgUniformTriv trBaseOneVert optsDepth2 (by decide),
         h.2.2.2.1 cgAdaptiveTriv trBaseOneVert { isolationLevel := 2 } (by decide),
         h.2.2.2.2 trBaseOneVert (by decide)⟩

/-- The adaptive loop appends at most one refinement per remaining pass. -/
theorem adaptiveLoop_refinements_le (cg : Level → RefineOptions → List Nat → Level)
    (ropts : RefineOptions) (shallow : Nat) (mF lF : FeatureMask) (st : SchemeType) :
    ∀ (rem i : Nat) (tr : TopologyRefiner),
      (adaptiveLoop cg ropts shallow mF lF st rem i tr).refinements.length
        ≤ tr.refinements.length + rem
  | 0, _, tr => by simp [adaptiveLoop]
  | rem + 1, i, tr => by
    simp only [adaptiveLoop]
    split <;> split <;>
      first
        | exact Nat.le_add_right _ _
        | refine le_trans
            (adaptiveLoop_refinements_le cg ropts shallow mF lF st rem (i + 1) _) ?_
          simp [TopologyRefiner.appendLevel, TopologyRefiner.appendRefinement,
                TopologyRefiner.updateInventory]
          omega

/-- C2: an empty sparse selection at a pass makes the adaptive loop discard
the fresh refinement and child level and return with no pass at any greater
depth attempted, and every successful `RefineAdaptive` sets `maxLevel` to the
number of refinement steps actually appended, which is at most the requested
isolation level. -/
theorem adaptive_empty_selection_stops :
    (∀ (cg : Level → RefineOptions → List Nat → Level) (ropts : RefineOptions)
       (shallow : Nat) (mF lF : FeatureMask) (st : SchemeType)
       (tr : TopologyRefiner) (rem i : Nat),
       (selectFeatureAdaptiveComponents st (tr.levels.getD (i - 1) {})
          (if i ≤ shallow then mF else lF)).isEmpty = true →
       adaptiveLoop cg ropts shallow mF lF st (rem + 1) i tr = tr)
    ∧ (∀ (cg : Level → RefineOptions → List Nat → Level) (tr : TopologyRefiner)
        (options : AdaptiveOptions),
        (RefineAdaptive cg tr options).2 = none →
        (RefineAdaptive cg tr options).1.maxLevel
          = (RefineAdaptive cg tr options).1.refinements.length
        ∧ (RefineAdaptive cg tr options).1.refinements.length
            ≤ options.isolationLevel) := by
  constructor
  · intro cg ropts shallow mF lF st tr rem i h
    simp only [adaptiveLoop]
    rw [if_pos h]
  · intro cg tr options h
    cases hB : ((tr.levels.headD {}).numVertices == 0) with
    | true =>
      rw [RefineAdaptive, if_pos hB] at h
      simp at h
    | false =>
      cases hB2 : (tr.refinements.length != 0) with
      | true =>
        rw [RefineAdaptive, if_neg (by simpa using hB), if_pos hB2] at h
        simp at h
      | false =>
        cases hB3 : (tr.subdivType != SchemeType.catmark) with
        | true =>
          rw [RefineAdaptive, if_neg (by simpa using hB), if_neg (by simpa using hB2),
              if_pos hB3] at h
          simp at h
        | false =>
          have hnil : tr.refinements = [] := by simpa using hB2
          rw [RefineAdaptive, if_neg (by simpa using hB), if_neg (by simpa using hB2),
              if_neg (by simpa using hB3)]
          constructor
          · simp
          · exact le_trans (adaptiveLoop_refinements_le _ _ _ _ _ _ _ _ _)
              (by simp [hnil])

/-- C2 witness: a base level with no faces yields an empty selection at the
first pass, zero refinements, and `maxLevel = 0 < isolationLevel`. -/
theorem adaptive_empty_selection_stops_witness :
    (adaptiveLoop cgAdaptiveTriv {} 0 {} {} SchemeType.catmark 1 1 trBaseOneVert
      = trBaseOneVert)
    ∧ ((RefineAdaptive cgAdaptiveTriv trBaseOneVert { isolationLevel := 1 }).1.maxLevel
        = (RefineAdaptive cgAdaptiveTriv trBaseOneVert
            { isolationLevel := 1 }).1.refinements.length
      ∧ (RefineAdaptive cgAdaptiveTriv trBaseOneVert
            { isolationLevel := 1 }).1.refinements.length ≤ 1) := by
  have h := adaptive_empty_selection_stops
  exact ⟨h.1 cgAdaptiveTriv {} 0 {} {} SchemeType.catmark trBaseOneVert 0 1 (by decide),
         h.2 cgAdaptiveTriv trBaseOneVert { isolationLevel := 1 } (by decide)⟩

/-- At depth 0, an irregular-sized non-hole face under a scheme with nonzero
local-neighborhood influence selects exactly the full one-ring: every face
incident on every one of its vertices. -/
theorem faceSelection_irregular_ring (st : SchemeType) (level : Level)
    (m : FeatureMask) (face : Nat) (h0 : level.depth = 0)
    (hh : level.isFaceHole face = false)
    (hsz : (level.getFaceVertices face).length ≠ GetRegularFaceSize st)
    (hnb : GetLocalNeighborhoodSize st ≠ 0) :
    faceSelectionList st level m face
      = ((level.getFaceVertices face).map level.getVertexFaces).flatten := by
  simp [faceSelectionList, hh, h0, hsz, hnb]

/-- At depth 0, an irregular-sized non-hole face under a zero-neighborhood
scheme selects only itself. -/
theorem faceSelection_irregular_self (st : SchemeType) (level : Level)
    (m : FeatureMask) (face : Nat) (h0 : level.depth = 0)
    (hh : level.isFaceHole face = false)
    (hsz : (level.getFaceVertices face).length ≠ GetRegularFaceSize st)
    (hnb : GetLocalNeighborhoodSize st = 0) :
    faceSelectionList st level m face = [face] := by
  simp [faceSelectionList, hh, h0, hsz, hnb]

/-- A regular-sized non-hole face with no features and no face-varying
consideration contributes nothing to the selection. -/
theorem faceSelection_regular_unselected (st : SchemeType) (level : Level)
    (m : FeatureMask) (face : Nat)
    (hh : level.isFaceHole face = false)
    (hreg : (level.getFaceVertices face).length = GetRegularFaceSize st)
    (hfeat : doesFaceHaveFeatures level face m = false)
    (hfvar : m.selectFVarFeatures = false) :
    faceSelectionList st level m face = [] := by
  simp [faceSelectionList, hh, hreg, hfeat, hfvar]

/-- With exactly one irregular face `f0` among otherwise regular,
feature-free, non-hole faces at depth 0, the driver selection is exactly the
faces incident on a vertex of `f0`. -/
theorem driver_scenario_one_irregular (st : SchemeType) (level : Level)
    (m : FeatureMask) (f0 : Nat)
    (h0 : level.depth = 0) (hnb : GetLocalNeighborhoodSize st ≠ 0)
    (hf0 : f0 < level.numFaces)
    (hhole : ∀ f, f < level.numFaces → level.isFaceHole f = false)
    (hsz : ∀ f, f < level.numFaces →
      ((level.getFaceVertices f).length ≠ GetRegularFaceSize st ↔ f = f0))
    (hfeat : ∀ f, f < level.numFaces → doesFaceHaveFeatures level f m = false)
    (hfvar : m.selectFVarFeatures = false) :
    ∀ g, g ∈ selectFeatureAdaptiveComponents st level m ↔
      ∃ v ∈ level.getFaceVertices f0, g ∈ level.getVertexFaces v := by
  intro g
  have htop : ¬((m.IsEmpty && !(level.depth == 0)) = true) := by simp [h0]
  rw [selectFeatureAdaptiveComponents, if_neg htop, List.mem_flatMap]
  constructor
  · rintro ⟨f, hfr, hgf⟩
    have hflt := List.mem_range.mp hfr
    by_cases hef : f = f0
    · subst hef
      rw [faceSelection_irregular_ring st level m f h0 (hhole f hflt)
          ((hsz f hflt).mpr rfl) hnb] at hgf
      rcases List.mem_flatten.mp hgf with ⟨l, hl, hgl⟩
      rcases List.mem_map.mp hl with ⟨v, hv, rfl⟩
      exact ⟨v, hv, hgl⟩
    · have hreg : (level.getFaceVertices f).length = GetRegularFaceSize st := by
        by_contra hc
        exact hef ((hsz f hflt).mp hc)
      rw [faceSelection_regular_unselected st level m f (hhole f hflt) hreg
          (hfeat f hflt) hfvar] at hgf
      simp at hgf
  · rintro ⟨v, hv, hgv⟩
    refine ⟨f0, List.mem_range.mpr hf0, ?_⟩
    rw [faceSelection_irregular_ring st level m f0 h0 (hhole f0 hf0)
        ((hsz f0 hf0).mpr rfl) hnb]
    exact List.mem_flatten.mpr ⟨level.getVertexFaces v, List.mem_map_of_mem _ hv, hgv⟩

/-- C7: at depth 0 a non-hole face of irregular size selects its full
one-ring when the scheme has nonzero local-neighborhood influence and only
itself when the influence is zero, with no feature test run; and on a mesh
with one irregular face among feature-free regular faces the depth-0
selection is exactly the irregular face's one-ring (the faces sharing a
vertex with it). -/
theorem depth0_irregular_one_ring :
    (∀ (st : SchemeType) (level : Level) (m : FeatureMask) (face : Nat),
      level.depth = 0 → level.isFaceHole face = false →
      (level.getFaceVertices face).length ≠ GetRegularFaceSize st →
      GetLocalNeighborhoodSize st ≠ 0 →
      faceSelectionList st level m face
        = ((level.getFaceVertices face).map level.getVertexFaces).flatten)
    ∧ (∀ (st : SchemeType) (level : Level) (m : FeatureMask) (face : Nat),
        level.depth = 0 → level.isFaceHole face = false →
        (level.getFaceVertices face).length ≠ GetRegularFaceSize st →
        GetLocalNeighborhoodSize st = 0 →
        faceSelectionList st level m face = [face])
    ∧ (∀ (st : SchemeType) (level : Level) (m : FeatureMask) (f0 : Nat),
        level.depth = 0 → GetLocalNeighborhoodSize st ≠ 0 →
        f0 < level.numFaces →
        (∀ f, f < level.numFaces → level.isFaceHole f = false) →
        (∀ f, f < level.numFaces →
          ((level.getFaceVertices f).length ≠ GetRegularFaceSize st ↔ f = f0)) →
        (∀ f, f < level.numFaces → doesFaceHaveFeatures level f m = false) →
        m.selectFVarFeatures = false →
        ∀ g, g ∈ selectFeatureAdaptiveComponents st level m ↔
          ∃ v ∈ level.getFaceVertices f0, g ∈ level.getVertexFaces v) :=
  ⟨faceSelection_irregular_ring, faceSelection_irregular_self,
   driver_scenario_one_irregular⟩

/-- C7 witness: the pentagon-among-quads level, under Catmark (one-ring),
under Bilinear (self only), and a concrete one-ring membership. -/
theorem depth0_irregular_one_ring_witness :
    (faceSelectionList SchemeType.catmark lvlPentagon {} 0
      = ((lvlPentagon.getFaceVertices 0).map lvlPentagon.getVertexFaces).flatten)
    ∧ (faceSelectionList SchemeType.bilinear lvlPentagon {} 0 = [0])
    ∧ 1 ∈ selectFeatureAdaptiveComponents SchemeType.catmark lvlPentagon {} := by
  have h := depth0_irregular_one_ring
  refine ⟨h.1 SchemeType.catmark lvlPentagon {} 0 (by decide) (by decide) (by decide)
            (by decide),
          h.2.1 SchemeType.bilinear lvlPentagon {} 0 (by decide) (by decide) (by decide)
            (by decide),
          (h.2.2 SchemeType.catmark lvlPentagon {} 0 (by decide) (by decide) (by decide)
            (by decide) (by decide) (by decide) (by decide) 1).mpr (by decide)⟩

end Far
